import Mathlib

/-!
Shallow embedding of the formula layer of `src/teste.py` (clair-code/nutricao).

Python floats are modelled as rationals (ℚ); every decimal literal of the
source is exact in ℚ. A Python function that can `raise` is modelled as a
function into `PyResult`, which separates a returned value from a raised
exception; `ValueError` carries the exact message string of the source, and
`UnboundLocalError` models the exception Python raises when a local variable
is read before any assignment. Python truthiness of an optional float
argument (`if fator_atividade:`) is modelled by `pyTruthy`: an absent value
and the value 0 are falsy, everything else is truthy.
-/

/-- The `Sexo` enumeration of the source (spec: Sex). -/
inductive Sexo
  | masculino
  | feminino
deriving DecidableEq, Repr

/-- The `Raca` enumeration of the source (spec: Ethnicity). -/
inductive Raca
  | branca
  | negra
deriving DecidableEq, Repr

/-- The `Condicao` enumeration of the source (spec: Condition). -/
inductive Condicao
  | obesidade
  | desnutricao
deriving DecidableEq, Repr

/-- The `NivelAtividade` enumeration of the source (spec: ActivityLevel). -/
inductive NivelAtividade
  | leveModerada
  | restritaIntensa
  | restricaoGrave
deriving DecidableEq, Repr

/-- The `.value` string of each `NivelAtividade` member, as in the source. -/
def NivelAtividade.value : NivelAtividade → String
  | .leveModerada => "leve a moderada"
  | .restritaIntensa => "restrita intensa"
  | .restricaoGrave => "restrição física grave"

/-- Exceptions a source function can raise. -/
inductive PyError
  | valueError (msg : String)
  | unboundLocalError
deriving DecidableEq, Repr

/-- Result of calling a Python function: a returned value or a raised
exception. -/
inductive PyResult (α : Type)
  | ok (val : α)
  | exn (e : PyError)
deriving DecidableEq, Repr

/-- Python truthiness of an optional float argument: `None` and `0.0` are
falsy, every other float is truthy. -/
def pyTruthy : Option ℚ → Bool
  | none => false
  | some x => x ≠ 0

/-- Embedding of `calcular_peso_ajustado` (spec: AdjustedWeight),
src/teste.py lines 28-37. The trailing `return None` of the source is dead:
the two `Condicao` members are both handled. -/
def calcular_peso_ajustado (peso_atual peso_ideal : ℚ) (condicao : Condicao) :
    PyResult (Option ℚ) :=
  if peso_atual ≤ 0 ∨ peso_ideal ≤ 0 then
    .exn (.valueError "Pesos devem ser valores positivos")
  else
    match condicao with
    | .obesidade => .ok (some ((peso_atual - peso_ideal) * 0.25 + peso_ideal))
    | .desnutricao => .ok (some ((peso_atual - peso_ideal) * 0.25 + peso_atual))

/-- Embedding of `estimar_peso_crianca` (spec: EstimateChildWeight),
src/teste.py lines 45-60. The trailing `return None` of the source is dead
for enumeration members: the four (sexo, raca) pairs are all handled. -/
def estimar_peso_crianca (altura_joelho perimetro_braco : ℚ) (sexo : Sexo)
    (raca : Raca) : PyResult (Option ℚ) :=
  if altura_joelho ≤ 0 ∨ perimetro_braco ≤ 0 then
    .exn (.valueError "Medidas devem ser positivas")
  else
    match sexo, raca with
    | .masculino, .branca =>
        .ok (some (altura_joelho * 0.68 + perimetro_braco * 2.64 - 50.08))
    | .masculino, .negra =>
        .ok (some (altura_joelho * 0.59 + perimetro_braco * 2.73 - 48.32))
    | .feminino, .branca =>
        .ok (some (altura_joelho * 0.77 + perimetro_braco * 2.47 - 50.16))
    | .feminino, .negra =>
        .ok (some (altura_joelho * 0.71 + perimetro_braco * 2.59 - 50.43))

/-- Embedding of `calcular_area_gorda_braco` (spec: ArmFatArea),
src/teste.py lines 118-122. Note the source divides by the literal `3.14`,
not by π. -/
def calcular_area_gorda_braco (circunferencia_braco area_muscular_braco : ℚ) :
    PyResult ℚ :=
  if circunferencia_braco ≤ 0 ∨ area_muscular_braco ≤ 0 then
    .exn (.valueError "Medidas devem ser positivas")
  else
    .ok (0.79 * (circunferencia_braco / 3.14) ^ 2 - area_muscular_braco)

/-- Embedding of `calcular_gasto_energetico_total` (spec:
TotalEnergyExpenditure), src/teste.py lines 154-167. The guards `if
fator_atividade and fator_estresse`, `if fator_atividade`, `elif
fator_estresse` are Python truthiness tests, modelled by `pyTruthy`. -/
def calcular_gasto_energetico_total (ere : ℚ)
    (fator_atividade fator_estresse : Option ℚ) : PyResult ℚ :=
  if ere ≤ 0 then
    .exn (.valueError "ERE deve ser positivo")
  else if pyTruthy fator_atividade && pyTruthy fator_estresse then
    .exn (.valueError "Use apenas fator de atividade OU fator de estresse")
  else if pyTruthy fator_atividade then
    .ok (ere * fator_atividade.getD 0)
  else if pyTruthy fator_estresse then
    .ok (ere * fator_estresse.getD 0)
  else
    .ok ere

/-- Embedding of `calcular_requerimento_energetico` (spec:
PediatricEnergyRequirement), src/teste.py lines 169-193. The source's band
conditions are replicated exactly, including the `3 <= idade < 9` guard that
leaves the interval (2.92, 3) falling through to `return None`. -/
def calcular_requerimento_energetico (idade peso estatura : ℚ) (sexo : Sexo)
    (fator_atividade : ℚ) : PyResult (Option ℚ) :=
  if idade < 0 ∨ peso ≤ 0 ∨ estatura ≤ 0 ∨ fator_atividade ≤ 0 then
    .exn (.valueError "Valores devem ser positivos")
  else if idade ≤ 0.25 then .ok (some (89 * peso - 100 + 175))
  else if idade ≤ 0.5 then .ok (some (89 * peso - 100 + 56))
  else if idade ≤ 1 then .ok (some (89 * peso - 100 + 22))
  else if idade ≤ 2.92 then .ok (some (89 * peso - 100 + 20))
  else if 3 ≤ idade ∧ idade < 9 then
    .ok (some (match sexo with
      | .masculino =>
          88.5 - 61.9 * idade + fator_atividade * (26.7 * peso + 903 * estatura) + 20
      | .feminino =>
          135.3 - 30.8 * idade + fator_atividade * (10 * peso + 934 * estatura) + 20))
  else if 9 ≤ idade ∧ idade ≤ 18 then
    .ok (some (match sexo with
      | .masculino =>
          88.5 - 61.9 * idade + fator_atividade * (26.7 * peso + 903 * estatura) + 25
      | .feminino =>
          135.3 - 30.8 * idade + fator_atividade * (10 * peso + 934 * estatura) + 25))
  else .ok none

/-- Embedding of `calcular_necessidade_pc` (spec: CerebralPalsyEnergyNeed),
src/teste.py lines 216-236. When no age band matches, the source reaches
`return base * fator_estresse` with the local `base` never assigned, which
raises `UnboundLocalError`; the function never returns `None`. -/
def calcular_necessidade_pc (peso altura : ℚ) (sexo : Sexo)
    (idade fator_estresse : ℚ) : PyResult ℚ :=
  if peso ≤ 0 ∨ altura ≤ 0 ∨ idade < 0 ∨ fator_estresse ≤ 0 then
    .exn (.valueError "Valores devem ser positivos")
  else
    let base? : Option ℚ :=
      match sexo with
      | .feminino =>
          if idade ≤ 3 then some (16.25 * peso + 1023.2 * altura - 413.5)
          else if idade ≤ 10 then some (16.97 * peso + 161.8 * altura + 371.2)
          else if idade ≤ 18 then some (8.365 * peso + 465 * altura + 200)
          else none
      | .masculino =>
          if idade ≤ 3 then some (0.167 * peso + 1517.4 * altura - 617.6)
          else if idade ≤ 10 then some (19.6 * peso + 130.3 * altura + 414.9)
          else if idade ≤ 18 then some (16.25 * peso + 137.2 * altura + 515.5)
          else none
    match base? with
    | some base => .ok (base * fator_estresse)
    | none => .exn .unboundLocalError

/-- Embedding of `necessidade_energetica_pc_5_11` (spec:
CPEnergyByActivityLevel_5to11), src/teste.py lines 238-246. Takes the
activity level as a string compared against the enumeration values, and
returns the plain number `0` when none matches. -/
def necessidade_energetica_pc_5_11 (altura : ℚ) (nivel_atividade : String) : ℚ :=
  if nivel_atividade = NivelAtividade.leveModerada.value then 13.9 * altura
  else if nivel_atividade = NivelAtividade.restritaIntensa.value then 10 * altura
  else if nivel_atividade = NivelAtividade.restricaoGrave.value then 11.1 * altura
  else 0

/-- Embedding of `necessidade_energetica_pc_estaveis` (spec:
CPEnergyByMotorCondition), src/teste.py lines 248-256. The condition is a
string: "sem disfunção motora" = no motor dysfunction, "não deambular
(caminhar)" = does not walk, "não apresentar disfunção mas deambular" = no
dysfunction but walks. Returns the plain number `0` when none matches. -/
def necessidade_energetica_pc_estaveis (altura : ℚ) (condicao_motora : String) : ℚ :=
  if condicao_motora = "sem disfunção motora" then 15 * altura
  else if condicao_motora = "não deambular (caminhar)" then 11 * altura
  else if condicao_motora = "não apresentar disfunção mas deambular" then 14 * altura
  else 0

/-- The spec's MotorCondition enumeration {NoDysfunction, Ambulatory,
NonAmbulatory}. -/
inductive MotorCondition
  | noDysfunction
  | ambulatory
  | nonAmbulatory
deriving DecidableEq, Repr

/-- The source string denoting each MotorCondition member, following the
glosses of the spec: Ambulatory walks without dysfunction ("não apresentar
disfunção mas deambular"), NonAmbulatory does not walk ("não deambular
(caminhar)"). -/
def MotorCondition.str : MotorCondition → String
  | .noDysfunction => "sem disfunção motora"
  | .ambulatory => "não apresentar disfunção mas deambular"
  | .nonAmbulatory => "não deambular (caminhar)"

/-- Embedding of `geb_critica` (spec: CriticallyIllBasalExpenditure),
src/teste.py lines 272-274. The source has no validation at all: it is a
single arithmetic expression. -/
def geb_critica (idade_meses peso temp_c : ℚ) : ℚ :=
  ((17 * idade_meses) + (48 * peso) + (292 * temp_c) - 9677) * 0.239

/-- Embedding of `tmb_schofield` (spec: SchofieldBMR), src/teste.py lines
276-292. The `estatura` parameter is accepted but never read by the body. -/
def tmb_schofield (peso estatura idade : ℚ) (sexo : Sexo) : Option ℚ :=
  match sexo with
  | .masculino =>
      if idade ≤ 3 then some (54.48 * peso - 30.33)
      else if idade ≤ 10 then some (22.7 * peso + 505)
      else if idade ≤ 18 then some (13.4 * peso + 693)
      else none
  | .feminino =>
      if idade ≤ 3 then some (58.29 * peso - 31.05)
      else if idade ≤ 10 then some (20.3 * peso + 486)
      else if idade ≤ 18 then some (17.7 * peso + 659)
      else none

/-- Claim C8: for either condition and positive actual and ideal weights that
are equal, `calcular_peso_ajustado` returns the ideal weight — both condition
branches degenerate to the same value there. -/
theorem calcular_peso_ajustado_equal_weights (peso_atual peso_ideal : ℚ)
    (cond : Condicao) (h1 : 0 < peso_atual) (h2 : 0 < peso_ideal)
    (heq : peso_atual = peso_ideal) :
    calcular_peso_ajustado peso_atual peso_ideal cond = .ok (some peso_ideal) := by
  subst heq
  unfold calcular_peso_ajustado
  rw [if_neg (by push_neg; exact ⟨h1, h2⟩)]
  cases cond <;> · ring_nf

/-- Witness for C8 at actual = ideal = 70, condition Obesity. -/
theorem calcular_peso_ajustado_equal_weights_witness :
    calcular_peso_ajustado 70 70 Condicao.obesidade = .ok (some 70) :=
  calcular_peso_ajustado_equal_weights 70 70 Condicao.obesidade
    (by norm_num) (by norm_num) rfl

/-- Claim C9: `tmb_schofield` never reads its `estatura` argument, so its
output is the same for any two heights, for every weight, age and sex. -/
theorem tmb_schofield_height_independent (peso idade e1 e2 : ℚ) (sexo : Sexo) :
    tmb_schofield peso e1 idade sexo = tmb_schofield peso e2 idade sexo := rfl

/-- Claim C10: for every member of the two enumerations and positive
measurements, `estimar_peso_crianca` returns a numeric result; the trailing
no-result branch is unreachable. -/
theorem estimar_peso_crianca_total (altura_joelho perimetro_braco : ℚ)
    (sexo : Sexo) (raca : Raca) (h1 : 0 < altura_joelho)
    (h2 : 0 < perimetro_braco) :
    ∃ v : ℚ, estimar_peso_crianca altura_joelho perimetro_braco sexo raca
      = .ok (some v) := by
  unfold estimar_peso_crianca
  rw [if_neg (by push_neg; exact ⟨h1, h2⟩)]
  cases sexo <;> cases raca <;> exact ⟨_, rfl⟩

/-- Witness for C10 at knee height 30, arm circumference 20, Male, White. -/
theorem estimar_peso_crianca_total_witness :
    ∃ v : ℚ, estimar_peso_crianca 30 20 Sexo.masculino Raca.branca
      = .ok (some v) :=
  estimar_peso_crianca_total 30 20 Sexo.masculino Raca.branca
    (by norm_num) (by norm_num)

/-- Counterexample to C5: at ageMonths = 0, weight = -1, tempC = 40 the source
returns the computed number 467.245 instead of failing on the non-positive
weight. -/
theorem geb_critica_counterexample : geb_critica 0 (-1) 40 = 467.245 := by
  norm_num [geb_critica]

/-- Amended C5: `geb_critica` performs no validation: even for weight ≤ 0 it
returns the linear combination (17·ageMonths + 48·weight + 292·tempC − 9677)
× 0.239 instead of failing. -/
theorem geb_critica_no_validation (idade_meses peso temp_c : ℚ)
    (h : peso ≤ 0) :
    geb_critica idade_meses peso temp_c =
      ((17 * idade_meses) + (48 * peso) + (292 * temp_c) - 9677) * 0.239 := rfl

/-- Witness for the amended C5 at ageMonths = 12, weight = -5, tempC = 37. -/
theorem geb_critica_no_validation_witness :
    geb_critica 12 (-5) 37 =
      ((17 * 12) + (48 * (-5)) + (292 * 37) - 9677) * 0.239 :=
  geb_critica_no_validation 12 (-5) 37 (by norm_num)

/-- Counterexample to C6: for an activity-level string outside the three
defined values the source returns the plain number 0, not an absent result —
its return type is a number and 0 is a sentinel. -/
theorem necessidade_pc_5_11_counterexample :
    necessidade_energetica_pc_5_11 120 "corrida" = 0 := by decide

/-- Amended C6: when the activity-level string matches none of the three
`NivelAtividade` values, `necessidade_energetica_pc_5_11` returns the
sentinel numeric value 0; the function has no optional/absent outcome. -/
theorem necessidade_pc_5_11_sentinel (altura : ℚ) (s : String)
    (h1 : s ≠ NivelAtividade.leveModerada.value)
    (h2 : s ≠ NivelAtividade.restritaIntensa.value)
    (h3 : s ≠ NivelAtividade.restricaoGrave.value) :
    necessidade_energetica_pc_5_11 altura s = 0 := by
  unfold necessidade_energetica_pc_5_11
  rw [if_neg h1, if_neg h2, if_neg h3]

/-- Witness for the amended C6 at height 120 and an unknown category. -/
theorem necessidade_pc_5_11_sentinel_witness :
    necessidade_energetica_pc_5_11 120 "outro nível" = 0 :=
  necessidade_pc_5_11_sentinel 120 "outro nível" (by decide) (by decide)
    (by decide)

/-- Counterexample to C1: at height 1 the Ambulatory condition (walks without
dysfunction, source string "não apresentar disfunção mas deambular") is not
multiplied by 11 — the source gives it coefficient 14. -/
theorem pc_estaveis_counterexample :
    necessidade_energetica_pc_estaveis 1 MotorCondition.ambulatory.str
      ≠ 11 * 1 := by
  rw [necessidade_energetica_pc_estaveis, MotorCondition.str,
    if_neg (by decide), if_neg (by decide)]
  norm_num

/-- Per-cm coefficient the source actually assigns to each motor condition. -/
def coefCondicaoMotora : MotorCondition → ℚ
  | .noDysfunction => 15
  | .ambulatory => 14
  | .nonAmbulatory => 11

/-- Amended C1: for every positive height, `necessidade_energetica_pc_estaveis`
multiplies the height by 15 for NoDysfunction, 14 for Ambulatory (walks
without dysfunction) and 11 for NonAmbulatory (does not walk). -/
theorem pc_estaveis_coefficients (altura : ℚ) (h : 0 < altura)
    (mc : MotorCondition) :
    necessidade_energetica_pc_estaveis altura mc.str
      = coefCondicaoMotora mc * altura := by
  cases mc
  · rw [necessidade_energetica_pc_estaveis, MotorCondition.str, if_pos rfl]
    rfl
  · rw [necessidade_energetica_pc_estaveis, MotorCondition.str,
      if_neg (by decide), if_neg (by decide), if_pos rfl]
    rfl
  · rw [necessidade_energetica_pc_estaveis, MotorCondition.str,
      if_neg (by decide), if_pos rfl]
    rfl

/-- Witness for the amended C1 at height 100 and condition NoDysfunction. -/
theorem pc_estaveis_coefficients_witness :
    necessidade_energetica_pc_estaveis 100 MotorCondition.noDysfunction.str
      = coefCondicaoMotora MotorCondition.noDysfunction * 100 :=
  pc_estaveis_coefficients 100 (by norm_num) MotorCondition.noDysfunction

/-- Claim C3 (code behavior at the failing input): with positive weight,
height and stress factor but age 19 — outside all three bands — the source
reaches `return base * fator_estresse` with `base` unassigned and raises
`UnboundLocalError`, which is not the no-result outcome and is a different
exception from the validation `ValueError`. -/
theorem calcular_necessidade_pc_age_19_raises :
    calcular_necessidade_pc 50 1.5 Sexo.masculino 19 1.2
      = .exn .unboundLocalError ∧
    PyError.unboundLocalError ≠ PyError.valueError "Valores devem ser positivos" := by
  constructor
  · norm_num [calcular_necessidade_pc]
  · intro hcontra
    exact PyError.noConfusion hcontra

/-- Counterexample to C2: with both factors supplied as exactly 1.0 — not
greater than the neutral value — the source still fails with the
mutual-exclusion error, refuting the claim's "if and only if both are
greater than 1.0". -/
theorem get_counterexample :
    calcular_gasto_energetico_total 100 (some 1) (some 1) =
      .exn (.valueError "Use apenas fator de atividade OU fator de estresse") ∧
    ¬((1 : ℚ) > 1 ∧ (1 : ℚ) > 1) := by
  constructor
  · norm_num [calcular_gasto_energetico_total, pyTruthy]
  · norm_num

/-- Amended C2: for positive basalRate, `calcular_gasto_energetico_total`
fails with the mutual-exclusion error exactly when both optional factors are
supplied with nonzero values (Python truthiness: an absent factor and a
factor equal to 0 count as not given); with no nonzero factor it returns
basalRate unchanged, and with exactly one nonzero factor it returns
basalRate multiplied by that factor. -/
theorem get_behavior (ere : ℚ) (h : 0 < ere) (fa fs : Option ℚ) :
    (calcular_gasto_energetico_total ere fa fs =
        .exn (.valueError "Use apenas fator de atividade OU fator de estresse")
      ↔ pyTruthy fa = true ∧ pyTruthy fs = true)
    ∧ calcular_gasto_energetico_total ere none none = .ok ere
    ∧ (∀ x : ℚ, x ≠ 0 →
        calcular_gasto_energetico_total ere (some x) none = .ok (ere * x))
    ∧ (∀ x : ℚ, x ≠ 0 →
        calcular_gasto_energetico_total ere none (some x) = .ok (ere * x)) := by
  have hne : ¬ ere ≤ 0 := not_le.mpr h
  refine ⟨⟨fun hres => ?_, fun hb => ?_⟩, ?_, fun x hx => ?_, fun x hx => ?_⟩
  · by_cases hband : (pyTruthy fa && pyTruthy fs) = true
    · simpa only [Bool.and_eq_true] using hband
    · exfalso
      unfold calcular_gasto_energetico_total at hres
      rw [if_neg hne, if_neg hband] at hres
      by_cases hfa : pyTruthy fa = true
      · rw [if_pos hfa] at hres
        exact PyResult.noConfusion hres
      · rw [if_neg hfa] at hres
        by_cases hfs : pyTruthy fs = true
        · rw [if_pos hfs] at hres
          exact PyResult.noConfusion hres
        · rw [if_neg hfs] at hres
          exact PyResult.noConfusion hres
  · unfold calcular_gasto_energetico_total
    rw [if_neg hne, if_pos (by rw [hb.1, hb.2]; rfl)]
  · unfold calcular_gasto_energetico_total
    simp [pyTruthy, hne]
  · unfold calcular_gasto_energetico_total
    simp [pyTruthy, hne, hx]
  · unfold calcular_gasto_energetico_total
    simp [pyTruthy, hne, hx]

/-- Witness for the amended C2: basalRate 100 with only an activity factor
of 1.5 gives 100 × 1.5. -/
theorem get_behavior_witness :
    calcular_gasto_energetico_total 100 (some 1.5) none = .ok (100 * 1.5) :=
  (get_behavior 100 (by norm_num) (some 1.5) none).2.2.1 1.5 (by norm_num)

/-- Counterexample to C4: age 2.95 lies in [0, 18] with positive weight,
height and activity factor, yet the source returns `None` — the bands leave
the interval (2.92, 3) uncovered. -/
theorem requerimento_energetico_gap_counterexample :
    (0 : ℚ) ≤ 2.95 ∧ (2.95 : ℚ) ≤ 18 ∧
    calcular_requerimento_energetico 2.95 10 1 Sexo.masculino 1.2 = .ok none := by
  refine ⟨by norm_num, by norm_num, ?_⟩
  norm_num [calcular_requerimento_energetico]

/-- Amended C4: with positive weight, height and activity factor and
non-negative age, `calcular_requerimento_energetico` returns a defined
numeric result exactly for ages in [0, 2.92] ∪ [3, 18], and yields the
no-result outcome exactly when the age lies in the uncovered gap (2.92, 3)
or exceeds 18; negative ages instead fail validation. -/
theorem requerimento_energetico_bands (idade peso estatura fator_atividade : ℚ)
    (sexo : Sexo) (hp : 0 < peso) (he : 0 < estatura)
    (hf : 0 < fator_atividade) (hi : 0 ≤ idade) :
    ((∃ v, calcular_requerimento_energetico idade peso estatura sexo
        fator_atividade = .ok (some v))
      ↔ idade ≤ 2.92 ∨ (3 ≤ idade ∧ idade ≤ 18))
    ∧ (calcular_requerimento_energetico idade peso estatura sexo
        fator_atividade = .ok none
      ↔ (2.92 < idade ∧ idade < 3) ∨ 18 < idade) := by
  have hv : ¬ (idade < 0 ∨ peso ≤ 0 ∨ estatura ≤ 0 ∨ fator_atividade ≤ 0) := by
    push_neg
    exact ⟨hi, hp, he, hf⟩
  unfold calcular_requerimento_energetico
  rw [if_neg hv]
  split_ifs with h1 h2 h3 h4 h5 h6
  · exact ⟨⟨fun _ => Or.inl (by linarith), fun _ => ⟨_, rfl⟩⟩,
      ⟨fun hc => absurd hc (by simp),
       fun hg => absurd hg (by rintro (⟨hg1, hg2⟩ | hg1) <;> linarith)⟩⟩
  · exact ⟨⟨fun _ => Or.inl (by linarith), fun _ => ⟨_, rfl⟩⟩,
      ⟨fun hc => absurd hc (by simp),
       fun hg => absurd hg (by rintro (⟨hg1, hg2⟩ | hg1) <;> linarith)⟩⟩
  · exact ⟨⟨fun _ => Or.inl (by linarith), fun _ => ⟨_, rfl⟩⟩,
      ⟨fun hc => absurd hc (by simp),
       fun hg => absurd hg (by rintro (⟨hg1, hg2⟩ | hg1) <;> linarith)⟩⟩
  · exact ⟨⟨fun _ => Or.inl h4, fun _ => ⟨_, rfl⟩⟩,
      ⟨fun hc => absurd hc (by simp),
       fun hg => absurd hg (by rintro (⟨hg1, hg2⟩ | hg1) <;> linarith)⟩⟩
  · obtain ⟨h5a, h5b⟩ := h5
    exact ⟨⟨fun _ => Or.inr ⟨h5a, by linarith⟩, fun _ => ⟨_, rfl⟩⟩,
      ⟨fun hc => absurd hc (by simp),
       fun hg => absurd hg (by rintro (⟨hg1, hg2⟩ | hg1) <;> linarith)⟩⟩
  · obtain ⟨h6a, h6b⟩ := h6
    exact ⟨⟨fun _ => Or.inr ⟨by linarith, h6b⟩, fun _ => ⟨_, rfl⟩⟩,
      ⟨fun hc => absurd hc (by simp),
       fun hg => absurd hg (by rintro (⟨hg1, hg2⟩ | hg1) <;> linarith)⟩⟩
  · push_neg at h5 h6
    constructor
    · constructor
      · rintro ⟨v, hv2⟩
        exact absurd hv2 (by simp)
      · rintro (hc | ⟨hc1, hc2⟩)
        · exact absurd hc h4
        · exact absurd (h6 (h5 hc1)) (not_lt.mpr hc2)
    · constructor
      · intro _
        by_cases hlt : idade < 3
        · exact Or.inl ⟨not_le.mp h4, hlt⟩
        · exact Or.inr (h6 (h5 (not_lt.mp hlt)))
      · intro _
        rfl

/-- Witness for the amended C4: age 19 with valid measurements yields the
no-result outcome. -/
theorem requerimento_energetico_bands_witness :
    calcular_requerimento_energetico 19 20 1.1 Sexo.masculino 1.2 = .ok none :=
  ((requerimento_energetico_bands 19 20 1.1 1.2 Sexo.masculino (by norm_num)
    (by norm_num) (by norm_num) (by norm_num)).2).mpr (Or.inr (by norm_num))

/-- Counterexample to C7: at armCircumference 3.14 and armMuscleArea 0.5 the
source computes 0.79 × (3.14/3.14)² − 0.5 = 0.29, while the claimed formula
with the exact constant π gives a different value, since π ≠ 3.14. -/
theorem area_gorda_counterexample :
    calcular_area_gorda_braco 3.14 0.5 = .ok 0.29 ∧
    0.79 * ((3.14 : ℝ) / Real.pi) ^ 2 - 0.5 ≠ (0.29 : ℝ) := by
  constructor
  · norm_num [calcular_area_gorda_braco]
  · have hpi : (3.141592 : ℝ) < Real.pi := Real.pi_gt_d6
    have hpi0 : (0 : ℝ) < Real.pi := by linarith
    have h1 : (3.14 : ℝ) / Real.pi < 1 := (div_lt_one hpi0).mpr (by linarith)
    have h2 : (0 : ℝ) ≤ 3.14 / Real.pi := by positivity
    have h3 : ((3.14 : ℝ) / Real.pi) ^ 2 < 1 := by nlinarith
    intro hcontra
    nlinarith

/-- Amended C7: for every positive armCircumference and armMuscleArea,
`calcular_area_gorda_braco` returns 0.79 × (armCircumference / 3.14)² −
armMuscleArea, using the approximation 3.14 in place of π. -/
theorem area_gorda_formula (c a : ℚ) (hc : 0 < c) (ha : 0 < a) :
    calcular_area_gorda_braco c a = .ok (0.79 * (c / 3.14) ^ 2 - a) := by
  unfold calcular_area_gorda_braco
  rw [if_neg (by push_neg; exact ⟨hc, ha⟩)]

/-- Witness for the amended C7 at armCircumference 6.28 and armMuscleArea 1. -/
theorem area_gorda_formula_witness :
    calcular_area_gorda_braco 6.28 1 = .ok (0.79 * (6.28 / 3.14) ^ 2 - 1) :=
  area_gorda_formula 6.28 1 (by norm_num) (by norm_num)
